import Mathlib

/-!
Verification of the paypal_rest client library, shallowly embedded from
`paypal_rest/client.py` and `paypal_rest/transaction.py`.

Conventions of the embedding:

* `datetime.datetime` values are modelled as `Int` seconds on a UTC timeline.
  The code only compares datetimes, takes `min`/`max`, and adds
  `datetime.timedelta(days=30)` (= 2592000 seconds), so this is faithful;
  `isoformat(timespec='seconds')` is injective on second-resolution datetimes,
  so the formatted `start_date`/`end_date` query parameters are modelled by
  the underlying instants themselves.
* JSON trees are an inductive `JSON` type; Python `Decimal` values are
  modelled as rationals.  Construction of a `Decimal` from an operand is
  exact (the constructor never rounds, whatever the context precision),
  while `Decimal` division rounds the exact quotient to the default
  context's 28 significant digits with half-even rounding; `decimalDivide`
  below models that rounding.  Only numeric values are modelled, not a
  result's exponent/trailing-zero presentation, which nothing in the
  library observes.
* Python exceptions become an explicit `PyError` type; `except KeyError`
  handlers catch exactly the errors whose `isKeyError` is true
  (`errors.MissingFieldError` subclasses `KeyError` in the source).
* HTTP is an oracle passed in as a function: the pager, the transaction
  lookup and the OAuth session are parameterised by the responses the
  network would return, and the theorems quantify over those oracles.
-/

namespace PaypalRest

/-! ## Date-window generator: `PayPalAPIClient._iter_date_params`

The generator in `client.py` picks `key1`/`key2`, a sign for the 30-day step,
a predicate (`operator.lt` / `operator.gt`) and a limit function (`min` /
`max`) once, depending on whether `start_date > end_date`, then runs one
loop.  `iterDateForward` and `iterDateBackward` below are that loop with the
two operator choices substituted; `iterDateParams` does the direction
dispatch.  Each loop iteration yields one parameter mapping whose two date
keys we record as a `DateWindow` (the other parameters are passed through
unchanged and carry no state). -/

/-- Seconds in `datetime.timedelta(days=30)`, the fixed maximum window span. -/
def dateDiffSeconds : Int := 30 * 86400

/-- The two date parameters of one yielded parameter mapping, as observed by
the consumer at the moment the mapping is yielded (the source mutates and
re-yields one ChainMap; its per-yield snapshot is what every caller in the
repository consumes). -/
structure DateWindow where
  start_date : Int
  end_date : Int
deriving Repr, DecidableEq

/-- Forward branch of the loop in `_iter_date_params` (taken when
`start_date <= end_date`): `key1 = start_date`, step `+30` days,
predicate `<`, limit `min`. -/
def iterDateForward (next_date end_date : Int) : List DateWindow :=
  if _h : next_date < end_date then
    { start_date := next_date, end_date := min (next_date + dateDiffSeconds) end_date } ::
      iterDateForward (min (next_date + dateDiffSeconds) end_date) end_date
  else
    []
termination_by (end_date - next_date).toNat
decreasing_by
  simp only [dateDiffSeconds]
  omega

/-- Backward branch of the loop in `_iter_date_params` (taken when
`start_date > end_date`): `key1 = end_date`, step `-30` days,
predicate `>`, limit `max`. -/
def iterDateBackward (next_date end_date : Int) : List DateWindow :=
  if _h : end_date < next_date then
    { start_date := max (next_date - dateDiffSeconds) end_date, end_date := next_date } ::
      iterDateBackward (max (next_date - dateDiffSeconds) end_date) end_date
  else
    []
termination_by (next_date - end_date).toNat
decreasing_by
  simp only [dateDiffSeconds]
  omega

/-- `PayPalAPIClient._iter_date_params`, as the list of per-yield date-window
snapshots. -/
def iterDateParams (start_date end_date : Int) : List DateWindow :=
  if end_date < start_date then
    iterDateBackward start_date end_date
  else
    iterDateForward start_date end_date

theorem iterDateForward_nil (c e : Int) (h : ¬ c < e) : iterDateForward c e = [] := by
  rw [iterDateForward]
  simp [h]

theorem iterDateForward_cons (c e : Int) (h : c < e) :
    iterDateForward c e =
      { start_date := c, end_date := min (c + dateDiffSeconds) e } ::
        iterDateForward (min (c + dateDiffSeconds) e) e := by
  rw [iterDateForward]
  simp [h]

theorem iterDateForward_ne_nil (c e : Int) : iterDateForward c e ≠ [] ↔ c < e := by
  by_cases h : c < e
  · simp [iterDateForward_cons c e h, h]
  · simp [iterDateForward_nil c e h, h]

theorem iterDateForward_head_start (c e : Int) (w : DateWindow)
    (hw : (iterDateForward c e).head? = some w) : w.start_date = c := by
  by_cases h : c < e
  · rw [iterDateForward_cons c e h] at hw
    simp only [List.head?_cons, Option.some.injEq] at hw
    rw [← hw]
  · rw [iterDateForward_nil c e h] at hw
    simp at hw

theorem iterDateForward_mem (c e : Int) (w : DateWindow) (hw : w ∈ iterDateForward c e) :
    c ≤ w.start_date ∧ w.start_date ≤ w.end_date ∧ w.end_date ≤ e ∧
      w.end_date - w.start_date ≤ dateDiffSeconds := by
  induction c, e using iterDateForward.induct with
  | case1 c e h ih =>
    rw [iterDateForward_cons c e h] at hw
    rcases List.mem_cons.mp hw with hw | hw
    · subst hw
      simp only [dateDiffSeconds] at *
      constructor
      · omega
      · refine ⟨?_, ?_, ?_⟩ <;> simp <;> omega
    · have := ih hw
      simp only [dateDiffSeconds] at *
      omega
  | case2 c e h =>
    rw [iterDateForward_nil c e h] at hw
    simp at hw

theorem iterDateForward_chain (c e : Int) :
    List.Chain' (fun a b => a.end_date = b.start_date) (iterDateForward c e) := by
  induction c, e using iterDateForward.induct with
  | case1 c e h ih =>
    rw [iterDateForward_cons c e h]
    refine List.chain'_cons'.mpr ⟨?_, ih⟩
    intro b hb
    rw [iterDateForward_head_start _ _ _ hb]
  | case2 c e h =>
    rw [iterDateForward_nil c e h]
    exact List.chain'_nil

theorem iterDateForward_getLast_end (c e : Int) (w : DateWindow)
    (hw : (iterDateForward c e).getLast? = some w) : w.end_date = e := by
  induction c, e using iterDateForward.induct with
  | case1 c e h ih =>
    rw [iterDateForward_cons c e h] at hw
    by_cases hrest : min (c + dateDiffSeconds) e < e
    · rw [iterDateForward_cons _ e hrest, List.getLast?_cons_cons,
        ← iterDateForward_cons _ e hrest] at hw
      exact ih hw
    · rw [iterDateForward_nil _ e hrest] at hw
      simp only [List.getLast?_singleton, Option.some.injEq] at hw
      rw [← hw]
      simp only [dateDiffSeconds] at *
      omega
  | case2 c e h =>
    rw [iterDateForward_nil c e h] at hw
    simp at hw

theorem iterDateForward_length (c e : Int) :
    (iterDateForward c e).length = ((e - c).toNat + 2591999) / 2592000 := by
  induction c, e using iterDateForward.induct with
  | case1 c e h ih =>
    rw [iterDateForward_cons c e h]
    simp only [List.length_cons, ih]
    simp only [dateDiffSeconds] at *
    omega
  | case2 c e h =>
    rw [iterDateForward_nil c e h]
    simp only [List.length_nil]
    omega

theorem iterDateBackward_nil (c e : Int) (h : ¬ e < c) : iterDateBackward c e = [] := by
  rw [iterDateBackward]
  simp [h]

theorem iterDateBackward_cons (c e : Int) (h : e < c) :
    iterDateBackward c e =
      { start_date := max (c - dateDiffSeconds) e, end_date := c } ::
        iterDateBackward (max (c - dateDiffSeconds) e) e := by
  rw [iterDateBackward]
  simp [h]

theorem iterDateBackward_ne_nil (c e : Int) : iterDateBackward c e ≠ [] ↔ e < c := by
  by_cases h : e < c
  · simp [iterDateBackward_cons c e h, h]
  · simp [iterDateBackward_nil c e h, h]

theorem iterDateBackward_head_end (c e : Int) (w : DateWindow)
    (hw : (iterDateBackward c e).head? = some w) : w.end_date = c := by
  by_cases h : e < c
  · rw [iterDateBackward_cons c e h] at hw
    simp only [List.head?_cons, Option.some.injEq] at hw
    rw [← hw]
  · rw [iterDateBackward_nil c e h] at hw
    simp at hw

theorem iterDateBackward_mem (c e : Int) (w : DateWindow) (hw : w ∈ iterDateBackward c e) :
    e ≤ w.start_date ∧ w.start_date ≤ w.end_date ∧ w.end_date ≤ c ∧
      w.end_date - w.start_date ≤ dateDiffSeconds := by
  induction c, e using iterDateBackward.induct with
  | case1 c e h ih =>
    rw [iterDateBackward_cons c e h] at hw
    rcases List.mem_cons.mp hw with hw | hw
    · subst hw
      simp only [dateDiffSeconds] at *
      refine ⟨?_, ?_, ?_, ?_⟩ <;> simp <;> omega
    · have := ih hw
      simp only [dateDiffSeconds] at *
      omega
  | case2 c e h =>
    rw [iterDateBackward_nil c e h] at hw
    simp at hw

theorem iterDateBackward_chain (c e : Int) :
    List.Chain' (fun a b => a.start_date = b.end_date) (iterDateBackward c e) := by
  induction c, e using iterDateBackward.induct with
  | case1 c e h ih =>
    rw [iterDateBackward_cons c e h]
    refine List.chain'_cons'.mpr ⟨?_, ih⟩
    intro b hb
    rw [iterDateBackward_head_end _ _ _ hb]
  | case2 c e h =>
    rw [iterDateBackward_nil c e h]
    exact List.chain'_nil

theorem iterDateBackward_getLast_start (c e : Int) (w : DateWindow)
    (hw : (iterDateBackward c e).getLast? = some w) : w.start_date = e := by
  induction c, e using iterDateBackward.induct with
  | case1 c e h ih =>
    rw [iterDateBackward_cons c e h] at hw
    by_cases hrest : e < max (c - dateDiffSeconds) e
    · rw [iterDateBackward_cons _ e hrest, List.getLast?_cons_cons,
        ← iterDateBackward_cons _ e hrest] at hw
      exact ih hw
    · rw [iterDateBackward_nil _ e hrest] at hw
      simp only [List.getLast?_singleton, Option.some.injEq] at hw
      rw [← hw]
      simp only [dateDiffSeconds] at *
      omega
  | case2 c e h =>
    rw [iterDateBackward_nil c e h] at hw
    simp at hw

theorem iterDateBackward_length (c e : Int) :
    (iterDateBackward c e).length = ((c - e).toNat + 2591999) / 2592000 := by
  induction c, e using iterDateBackward.induct with
  | case1 c e h ih =>
    rw [iterDateBackward_cons c e h]
    simp only [List.length_cons, ih]
    simp only [dateDiffSeconds] at *
    omega
  | case2 c e h =>
    rw [iterDateBackward_nil c e h]
    simp only [List.length_nil]
    omega

/-! ## Pager: `PayPalAPIClient._iter_pages`

The pager repeatedly calls `_get_json` with a `page` parameter computed from
the previous response's reported `page` field, while the previous response
reports `page < total_pages`, starting from the assumed response
`{page: 0, total_pages: 1}`.  The network is an oracle `fetch` from the
requested page number to the `page`/`total_pages` fields of the response it
returns.  The Python loop is a generator with no built-in bound, so the
embedding runs it on explicit fuel; every theorem below supplies enough fuel
for the loop to reach its exit condition. -/

/-- Pagination fields of one `_get_json` response. -/
structure PageResponse where
  page : Nat
  total_pages : Nat
deriving Repr, DecidableEq

/-- Loop body of `_iter_pages`: from the previous response, while
`response['page'] < response['total_pages']`, request page
`response['page'] + 1` and yield the (request, response) pair. -/
def iterPagesFrom (fetch : Nat → PageResponse) (response : PageResponse) :
    Nat → List (Nat × PageResponse)
  | 0 => []
  | fuel + 1 =>
    if response.page < response.total_pages then
      (response.page + 1, fetch (response.page + 1)) ::
        iterPagesFrom fetch (fetch (response.page + 1)) fuel
    else
      []

/-- `PayPalAPIClient._iter_pages` run on `fuel` loop iterations: the list of
(requested page parameter, returned response) pairs, starting from the
assumed state page 0 of total_pages 1. -/
def iterPages (fetch : Nat → PageResponse) (fuel : Nat) : List (Nat × PageResponse) :=
  iterPagesFrom fetch { page := 0, total_pages := 1 } fuel

/-! ## Transaction lookup: `PayPalAPIClient.get_transaction`

One `_get_json` request is issued per window yielded by
`_iter_date_params(end_date, start_date, ...)` (note the argument swap: the
caller's `end_date` is the generator's first positional argument), until a
response has a non-empty (truthy) `transaction_details` array; its first
element is returned.  The network is an oracle from the window's date
parameters to the `transaction_details` array of the response. -/

/-- Outcome of `get_transaction`: either the first element of the first
non-empty `transaction_details` array, or the `ValueError` carrying the
searched transaction id. -/
inductive LookupResult (τ : Type) where
  | found (txn : τ)
  | notFound (transaction_id : String)
deriving Repr, DecidableEq

/-- Result of a `get_transaction` run together with the number of
`_get_json` requests it issued. -/
structure LookupTrace (τ : Type) where
  result : LookupResult τ
  requests : Nat
deriving Repr, DecidableEq

/-- The window loop of `get_transaction` over an explicit window list. -/
def getTransactionLoop {τ : Type} (search : DateWindow → List τ) (transaction_id : String) :
    List DateWindow → LookupTrace τ
  | [] => { result := .notFound transaction_id, requests := 0 }
  | w :: ws =>
    match search w with
    | [] =>
      let rest := getTransactionLoop search transaction_id ws
      { result := rest.result, requests := rest.requests + 1 }
    | first :: _ => { result := .found first, requests := 1 }

/-- `PayPalAPIClient.get_transaction` with explicit (non-defaulted) date
bounds: searches the windows of `_iter_date_params(end_date, start_date)`. -/
def get_transaction {τ : Type} (search : DateWindow → List τ) (transaction_id : String)
    (end_date start_date : Int) : LookupTrace τ :=
  getTransactionLoop search transaction_id (iterDateParams end_date start_date)

/-! ## Authenticated session: `PayPalSession.request`

The override calls the inherited `request`; if the response status is 401 it
fetches a fresh token and retries the inherited `request` exactly once,
returning that second response whatever its status.  The transport is an
oracle from the index of the inherited-request call (0 or 1) within one
logical call to the status code it returns. -/

/-- Observable side effects of one `PayPalSession.request` call. -/
inductive SessionEvent where
  | httpRequest (status : Nat)
  | tokenFetch
deriving Repr, DecidableEq

/-- True for the events that are requests of the original URL (token fetches
are counted separately). -/
def SessionEvent.isHttpRequest : SessionEvent → Bool
  | .httpRequest _ => true
  | .tokenFetch => false

/-- True for token-endpoint fetch events. -/
def SessionEvent.isTokenFetch : SessionEvent → Bool
  | .httpRequest _ => false
  | .tokenFetch => true

/-- `PayPalSession.request`: the ordered event trace of one logical call and
the status code of the response it returns. -/
def sessionRequest (transport : Nat → Nat) : List SessionEvent × Nat :=
  if transport 0 = 401 then
    ([.httpRequest (transport 0), .tokenFetch, .httpRequest (transport 1)], transport 1)
  else
    ([.httpRequest (transport 0)], transport 0)

/-! ## JSON trees and Python exceptions

`APIResponse` is `Mapping[str, Any]` over parsed JSON, so the value universe
is the JSON one.  Decimal strings (PayPal sends amounts as strings) and
Python numbers are both modelled as exact rationals in the `num` leaf; see
the header comment.  `PyError` carries the exception classes the code under
verification distinguishes: `KeyError`, its subclass
`errors.MissingFieldError`, and the non-`KeyError` classes (`TypeError` from
subscripting a non-mapping, `decimal.InvalidOperation` from converting a
non-numeric operand — `Decimal` raises `TypeError` for some operand types,
which behaves identically through every `except KeyError` handler here — and
`decimal.DivisionByZero`). -/

inductive JSON where
  | null
  | bool (b : Bool)
  | str (s : String)
  | num (q : ℚ)
  | arr (elems : List JSON)
  | obj (fields : List (String × JSON))

/-- Key lookup in an object's field list (Python dict keys are unique; the
first match is the binding). -/
def lookupField : List (String × JSON) → String → Option JSON
  | [], _ => none
  | (k, v) :: rest, key => if k = key then some v else lookupField rest key

inductive PyError where
  | keyError (key : String)
  | missingFieldError (msg : String)
  | typeError
  | invalidOperation
  | divisionByZero
deriving Repr, DecidableEq

/-- Which exceptions an `except KeyError` handler catches:
`errors.MissingFieldError` is declared as a subclass of `KeyError`. -/
def PyError.isKeyError : PyError → Bool
  | .keyError _ => true
  | .missingFieldError _ => true
  | _ => false

/-- Python subscripting `value[key]` with a string key: `KeyError` when the
key is absent from a mapping, `TypeError` when the value is not a mapping. -/
def JSON.getItem : JSON → String → Except PyError JSON
  | .obj fields, key =>
    match lookupField fields key with
    | some v => .ok v
    | none => .error (.keyError key)
  | _, _ => .error .typeError

/-- Python `Mapping.get(key)` (and `get(key, default)` via `Option` fallback
at the call sites): `None`-as-`Option.none` when the key is absent.  Only
applied to values that are mappings in the source. -/
def JSON.getOpt : JSON → String → Option JSON
  | .obj fields, key => lookupField fields key
  | _, _ => none

/-- Python `str()` of the interpolated transaction id, approximated for
non-string leaves (the exact rendering of numbers and containers inside an
error message is irrelevant to every claim; the error class is not). -/
def displayString : JSON → String
  | .null => "None"
  | .bool b => toString b
  | .str s => s
  | .num q => toString q
  | .arr _ => "<list>"
  | .obj _ => "<dict>"

/-- Python `repr` of a string key, as interpolated by `!r`. -/
def pyRepr (s : String) : String := "'" ++ s ++ "'"

/-! ## Response view: `Transaction._get_from_response` and the accessors -/

/-- The transaction label used in `_get_from_response` error messages:
`f"Transaction {self['transaction_info']['transaction_id']}"` guarded by an
`except KeyError` handler that falls back to `"Transaction"`.  A `TypeError`
raised while subscripting (when `transaction_info` is present but not a
mapping) is not caught and propagates. -/
def transactionLabel (self : JSON) : Except PyError String :=
  match self.getItem "transaction_info" with
  | .ok ti =>
    match ti.getItem "transaction_id" with
    | .ok v => .ok ("Transaction " ++ displayString v)
    | .error e => if e.isKeyError then .ok "Transaction" else .error e
  | .error e => if e.isKeyError then .ok "Transaction" else .error e

/-- The `'→'.join(repr(key) for key in keys[:index + 1])` path rendering. -/
def joinPath (keys : List String) : String :=
  String.intercalate "→" (keys.map pyRepr)

/-- The traversal loop of `_get_from_response`: `retval = retval[key]` over
the keys; a `KeyError` at index 0 becomes `errors.MissingFieldError`, a
`KeyError` at a later index becomes a generic `KeyError` carrying the path,
any other exception (and any exception from building the label) propagates. -/
def getFromResponseGo (self : JSON) (allKeys : List String) :
    JSON → List String → Nat → Except PyError JSON
  | retval, [], _ => .ok retval
  | retval, key :: rest, index =>
    match retval.getItem key with
    | .ok v => getFromResponseGo self allKeys v rest (index + 1)
    | .error e =>
      if e.isKeyError then
        match transactionLabel self with
        | .error e2 => .error e2
        | .ok txnId =>
          if index ≠ 0 then
            .error (.keyError (txnId ++ " " ++ joinPath (allKeys.take (index + 1))))
          else
            .error (.missingFieldError (txnId ++ " was not loaded with " ++
              pyRepr key ++ " field"))
      else
        .error e

/-- `Transaction._get_from_response(*keys)`. -/
def getFromResponse (self : JSON) (keys : List String) : Except PyError JSON :=
  getFromResponseGo self keys self keys 0

/-! ## Amounts and cart items: `paypal_types.Amount`, `transaction.CartItem` -/

/-- `paypal_types.Amount`:  a number/currency pair.  The currency field is
whatever JSON value sat under `currency_code` (Python never checks it). -/
structure Amount where
  number : ℚ
  currency : JSON

/-- The `Decimal(...)` constructor on a JSON value: exact for numeric
operands, `InvalidOperation`/`TypeError` (collapsed, see above) otherwise. -/
def pyDecimal : JSON → Except PyError ℚ
  | .num q => .ok q
  | _ => .error .invalidOperation

/-- `Amount.from_api`: `cls(Decimal(source['value']), source['currency_code'])`,
arguments evaluated left to right. -/
def amountFromAPI (source : JSON) : Except PyError Amount :=
  match source.getItem "value" with
  | .error e => .error e
  | .ok v =>
    match pyDecimal v with
    | .error e => .error e
    | .ok q =>
      match source.getItem "currency_code" with
      | .error e => .error e
      | .ok c => .ok { number := q, currency := c }

/-- Digit-count helper: `floorLog10Go fuel n` repeatedly divides by 10, so
it is the floor of log10 n for `1 ≤ n ≤ fuel` (the fuel only bounds the
recursion depth and is in practice the number itself). -/
def floorLog10Go : Nat → Nat → Nat
  | 0, _ => 0
  | fuel + 1, n => if n < 10 then 0 else floorLog10Go fuel (n / 10) + 1

/-- Floor of log10 n for positive n. -/
def floorLog10 (n : Nat) : Nat := floorLog10Go n n

/-- Round the integer fraction n / d (with d positive) to the nearest
integer, ties to even: the value map of `decimal.ROUND_HALF_EVEN`
(tie-to-even on the two consecutive integers agrees with tie-to-even on
coefficient magnitudes, for either sign). -/
def roundHalfEvenInt (n d : Int) : Int :=
  let q := Int.fdiv n d
  let r := n - q * d
  if 2 * r < d then q
  else if d < 2 * r then q + 1
  else if q % 2 = 0 then q else q + 1

/-- Floor of log10 (m / n) for positive m and n: the adjusted exponent of
the exact quotient, computed from the digit counts of the two operands
corrected by one comparison. -/
def adjustedExpFrac (m n : Nat) : Int :=
  let k0 : Int := (floorLog10 m : Int) - (floorLog10 n : Int)
  if 0 ≤ k0 then
    if n * 10 ^ k0.toNat ≤ m then k0 else k0 - 1
  else
    if n ≤ m * 10 ^ (-k0).toNat then k0 else k0 - 1

/-- The numeric value of Python `Decimal` division p / q (q nonzero; the
zero-divisor `DivisionByZero` case is handled at the call site) under the
default context (precision 28, `ROUND_HALF_EVEN`): the exact quotient
rounded to 28 significant digits, half-even.  Computed over the integer
numerators and denominators so that the sign is carried by `a`, the
denominator `b` is positive, and the scaled quotient lands in
[10^27, 10^28) before rounding. -/
def decimalDivide (p q : ℚ) : ℚ :=
  let a0 : Int := p.num * (q.den : Int)
  let b0 : Int := (p.den : Int) * q.num
  let a : Int := if b0 < 0 then -a0 else a0
  let b : Int := if b0 < 0 then -b0 else b0
  if a = 0 then 0
  else
    let e : Int := adjustedExpFrac a.natAbs b.natAbs - 27
    if 0 ≤ e then
      Rat.divInt (roundHalfEvenInt a (b * 10 ^ e.toNat) * 10 ^ e.toNat) 1
    else
      Rat.divInt (roundHalfEvenInt (a * 10 ^ (-e).toNat) b) (10 ^ (-e).toNat)

/-- `transaction.CartItem` (the NamedTuple).  `code`/`name`/`description`
keep the raw JSON value or Python `None` (`Option.none`). -/
structure CartItem where
  code : Option JSON
  name : Option JSON
  description : Option JSON
  quantity : ℚ
  unit_price : Amount
  total_price : Amount

/-- `CartItem.from_api`: `total_price` from the required `item_amount` key,
`quantity = Decimal(source.get('item_quantity', 1))`, then
`unit_price = Amount.from_api(source['item_unit_price'])` with an
`except KeyError` fallback deriving
`total_price._replace(number=total_price.number / quantity)` (Decimal
division by zero raises; otherwise the quotient is rounded to the default
context's 28 significant digits by `decimalDivide`). -/
def CartItem.from_api (source : JSON) (default_name : Option JSON) :
    Except PyError CartItem :=
  match source.getItem "item_amount" with
  | .error e => .error e
  | .ok amountJson =>
    match amountFromAPI amountJson with
    | .error e => .error e
    | .ok total_price =>
      match pyDecimal ((source.getOpt "item_quantity").getD (.num 1)) with
      | .error e => .error e
      | .ok quantity =>
        let unitTry : Except PyError Amount :=
          match source.getItem "item_unit_price" with
          | .ok upJson => amountFromAPI upJson
          | .error e => .error e
        match unitTry with
        | .ok unit_price =>
          .ok { code := source.getOpt "item_code",
                name := (source.getOpt "item_name").orElse (fun _ => default_name),
                description := source.getOpt "item_description",
                quantity := quantity, unit_price := unit_price,
                total_price := total_price }
        | .error e =>
          if e.isKeyError then
            if quantity = 0 then
              .error .divisionByZero
            else
              .ok { code := source.getOpt "item_code",
                    name := (source.getOpt "item_name").orElse (fun _ => default_name),
                    description := source.getOpt "item_description",
                    quantity := quantity,
                    unit_price := { total_price with
                                    number := decimalDivide total_price.number quantity },
                    total_price := total_price }
          else
            .error e

/-- `Transaction._fee_amount`: `txn_info['fee_amount']` with an
`except KeyError` handler returning `None`; otherwise `Amount.from_api`. -/
def feeAmountOfInfo (txn_info : JSON) : Except PyError (Option Amount) :=
  match txn_info.getItem "fee_amount" with
  | .ok raw_fee =>
    match amountFromAPI raw_fee with
    | .ok a => .ok (some a)
    | .error e => .error e
  | .error e => if e.isKeyError then .ok none else .error e

/-- The `fee_amount` accessor built by `_wrap_response('fee_amount',
_fee_amount, 'transaction_info', ...)`: traverse the single-key path, then
apply `_fee_amount` to the loaded group. -/
def fee_amount (self : JSON) : Except PyError (Option Amount) :=
  match getFromResponse self ["transaction_info"] with
  | .error e => .error e
  | .ok ti => feeAmountOfInfo ti

/-- The `default_name` computation of `Transaction.cart_items`:
`self['transaction_info']['transaction_subject']` with an `except KeyError`
fallback to `None`. -/
def defaultNameOf (self : JSON) : Except PyError (Option JSON) :=
  match self.getItem "transaction_info" with
  | .ok ti =>
    match ti.getItem "transaction_subject" with
    | .ok v => .ok (some v)
    | .error e => if e.isKeyError then .ok none else .error e
  | .error e => if e.isKeyError then .ok none else .error e

/-- The item loop of `Transaction.cart_items`: each conversion failure that
is a `KeyError` is skipped (`except KeyError: pass`); any other exception
aborts the iteration. -/
def cartItemsFrom (default_name : Option JSON) : List JSON → Except PyError (List CartItem)
  | [] => .ok []
  | src :: rest =>
    match CartItem.from_api src default_name with
    | .ok item =>
      match cartItemsFrom default_name rest with
      | .ok items => .ok (item :: items)
      | .error e => .error e
    | .error e =>
      if e.isKeyError then cartItemsFrom default_name rest else .error e

/-- `Transaction.cart_items`, with the generator consumed to completion (a
propagating exception therefore aborts the whole iteration, as it does for
any Python consumer of the generator). -/
def cart_items (self : JSON) : Except PyError (List CartItem) :=
  match getFromResponse self ["cart_info"] with
  | .error e => .error e
  | .ok cart_info =>
    match cart_info.getItem "item_details" with
    | .error e => if e.isKeyError then .ok [] else .error e
    | .ok (.arr item_seq) =>
      match defaultNameOf self with
      | .error e => .error e
      | .ok default_name => cartItemsFrom default_name item_seq
    | .ok _ => .error .typeError

/-! ## Field selectors: `PayPalFields` / `TransactionFields`

An `enum.Flag` value is its bitmask (`Nat`).  The class's members, in
declaration order, are the named flags; the derived `ALL` member is the OR of
the seven base flags.  (Whether iterating the class yields the composite
`ALL` member depends on the Python minor version, but `param_value` filters
it out either way: `ALL.is_base_field()` is false.)  `is_base_field` tests
`not math.log2(value) % 1`, i.e. that the value is a power of two; every
member value is positive, so `log2` is defined. -/

/-- Python `str.lower` (all member names are ASCII, where `lower` is exactly
the per-character mapping). -/
def pyLower (s : String) : String := String.mk (s.data.map Char.toLower)

/-- Python `str.upper` (ASCII arguments, as above). -/
def pyUpper (s : String) : String := String.mk (s.data.map Char.toUpper)

/-- The members of `TransactionFields` in declaration order, with their
`enum.auto()` bitmask values. -/
def transactionFieldMembers : List (String × Nat) :=
  [("TRANSACTION", 1), ("PAYER", 2), ("SHIPPING", 4), ("AUCTION", 8),
   ("CART", 16), ("INCENTIVE", 32), ("STORE", 64),
   ("ALL", 1 ||| 2 ||| 4 ||| 8 ||| 16 ||| 32 ||| 64)]

/-- `PayPalFields.is_base_field`: `log2(value)` is integral, i.e. the value
is a power of two. -/
def isBaseField (v : Nat) : Bool := v != 0 && (v &&& (v - 1)) == 0

/-- `TransactionFields._base_value`: the lower-cased member name with the
`_info` suffix appended. -/
def transactionBaseValue (name : String) : String := pyLower name ++ "_info"

/-- `PayPalFields.param_value` for `TransactionFields`: the comma-joined
base values of the base-field members contained in the bitmask, in
declaration order. -/
def paramValue (v : Nat) : String :=
  String.intercalate ","
    ((transactionFieldMembers.filter
        (fun m => (m.2 &&& v) != 0 && isBaseField m.2)).map
      (fun m => transactionBaseValue m.1))

/-- Member lookup by name for `cls[arg]`. -/
def lookupMember : List (String × Nat) → String → Option Nat
  | [], _ => none
  | (k, v) :: rest, key => if k = key then some v else lookupMember rest key

/-- `PayPalFields.from_arg` for `TransactionFields`:
`cls[arg.upper()]`, with `KeyError` converted to the `ValueError`
message `unknown TransactionFields {arg!r}`. -/
def fromArg (arg : String) : Except String Nat :=
  match lookupMember transactionFieldMembers (pyUpper arg) with
  | some v => .ok v
  | none => .error ("unknown TransactionFields " ++ pyRepr arg)

/-! ## Claim C1: contiguity and direction of the date windows

As stated, the claim also covers `start = end`, where it asserts a first
window exists; the generator's loop condition is strict, so it yields no
window there (see the counterexample).  The amended claim restricts the
forward half to `start < end`. -/

/-- C1 counterexample: for start = end (here both 0) the claim asserts the
first window's start_date equals start, but `_iter_date_params` yields no
window at all, so no first window exists. -/
theorem iterDateParams_point_counterexample :
    iterDateParams 0 0 = [] ∧
    ¬ ∃ w : DateWindow, (iterDateParams 0 0).head? = some w ∧ w.start_date = 0 := by
  have h : iterDateParams 0 0 = [] := by
    rw [iterDateParams, if_neg (by omega)]
    exact iterDateForward_nil 0 0 (by omega)
  refine ⟨h, ?_⟩
  rintro ⟨w, hw, -⟩
  rw [h] at hw
  simp at hw

/-- C1 (amended): for start < end the forward windows are contiguous and
non-decreasing — the first window's start_date is start, each window's
end_date is the next window's start_date, the last window's end_date is end,
and every window is internally ordered; for start > end (backward mode) the
windows are contiguous and non-increasing — the first window's end_date is
start, each window's start_date is the next window's end_date, and the last
window's start_date is end. -/
theorem iterDateParams_contiguous (s e : Int) :
    (s < e →
      iterDateParams s e ≠ [] ∧
      (∀ w, (iterDateParams s e).head? = some w → w.start_date = s) ∧
      (∀ w, (iterDateParams s e).getLast? = some w → w.end_date = e) ∧
      List.Chain' (fun a b => a.end_date = b.start_date) (iterDateParams s e) ∧
      ∀ w ∈ iterDateParams s e, w.start_date ≤ w.end_date) ∧
    (e < s →
      iterDateParams s e ≠ [] ∧
      (∀ w, (iterDateParams s e).head? = some w → w.end_date = s) ∧
      (∀ w, (iterDateParams s e).getLast? = some w → w.start_date = e) ∧
      List.Chain' (fun a b => a.start_date = b.end_date) (iterDateParams s e) ∧
      ∀ w ∈ iterDateParams s e, w.start_date ≤ w.end_date) := by
  constructor
  · intro h
    rw [iterDateParams, if_neg (by omega)]
    refine ⟨(iterDateForward_ne_nil s e).mpr h,
      fun w hw => iterDateForward_head_start s e w hw,
      fun w hw => iterDateForward_getLast_end s e w hw,
      iterDateForward_chain s e,
      fun w hw => (iterDateForward_mem s e w hw).2.1⟩
  · intro h
    rw [iterDateParams, if_pos h]
    refine ⟨(iterDateBackward_ne_nil s e).mpr h,
      fun w hw => iterDateBackward_head_end s e w hw,
      fun w hw => iterDateBackward_getLast_start s e w hw,
      iterDateBackward_chain s e,
      fun w hw => (iterDateBackward_mem s e w hw).2.1⟩

/-- C1 witness: the amended claim applied at a concrete forward range
(0 to 45 days) and a concrete backward range (45 days down to 0). -/
theorem iterDateParams_contiguous_witness :
    (iterDateParams 0 (45 * 86400) ≠ [] ∧
      (∀ w, (iterDateParams 0 (45 * 86400)).head? = some w → w.start_date = 0) ∧
      (∀ w, (iterDateParams 0 (45 * 86400)).getLast? = some w → w.end_date = 45 * 86400) ∧
      List.Chain' (fun a b => a.end_date = b.start_date) (iterDateParams 0 (45 * 86400)) ∧
      ∀ w ∈ iterDateParams 0 (45 * 86400), w.start_date ≤ w.end_date) ∧
    (iterDateParams (45 * 86400) 0 ≠ [] ∧
      (∀ w, (iterDateParams (45 * 86400) 0).head? = some w → w.end_date = 45 * 86400) ∧
      (∀ w, (iterDateParams (45 * 86400) 0).getLast? = some w → w.start_date = 0) ∧
      List.Chain' (fun a b => a.start_date = b.end_date) (iterDateParams (45 * 86400) 0) ∧
      ∀ w ∈ iterDateParams (45 * 86400) 0, w.start_date ≤ w.end_date) :=
  ⟨(iterDateParams_contiguous 0 (45 * 86400)).1 (by norm_num),
   (iterDateParams_contiguous (45 * 86400) 0).2 (by norm_num)⟩

/-! ## Claim C2: window count

The claimed count `D / 30 + 1` overcounts by one whenever `D` is a multiple
of 30 (including the zero-length range, which yields no window); the count
realised by the code is the ceiling `(D + 29) / 30`. -/

/-- C2 counterexample: a 30-day range yields one window where the claimed
formula gives `30/30 + 1 = 2`, and a zero-length range yields zero windows
where the claim demands exactly one window at the single point. -/
theorem iterDateParams_count_counterexample :
    (iterDateParams 0 (30 * 86400)).length = 1 ∧ 30 / 30 + 1 = 2 ∧
    (iterDateParams 0 0).length = 0 ∧ 0 / 30 + 1 = 1 := by
  refine ⟨?_, by norm_num, ?_, by norm_num⟩
  · rw [iterDateParams, if_neg (by omega), iterDateForward_length]
    omega
  · rw [iterDateParams, if_neg (by omega), iterDateForward_length]
    omega

/-- C2 (amended): a range of D days (in either direction) yields exactly
ceil(D/30) = (D + 29) / 30 windows under the fixed 30-day maximum span; in
particular a zero-length range yields no window. -/
theorem iterDateParams_window_count (s : Int) (D : Nat) :
    (iterDateParams s (s + D * 86400)).length = (D + 29) / 30 ∧
    (iterDateParams (s + D * 86400) s).length = (D + 29) / 30 ∧
    iterDateParams s s = [] := by
  refine ⟨?_, ?_, ?_⟩
  · rw [iterDateParams, if_neg (by omega), iterDateForward_length]
    omega
  · by_cases hD : 0 < D
    · rw [iterDateParams, if_pos (by omega), iterDateBackward_length]
      omega
    · have hD0 : D = 0 := by omega
      subst hD0
      rw [iterDateParams, if_neg (by omega), iterDateForward_length]
      omega
  · rw [iterDateParams, if_neg (by omega)]
    exact iterDateForward_nil s s (by omega)

/-! ## Claim C10: every yielded window is internally well-ordered -/

/-- C10: in both directions, every parameter mapping yielded by
`_iter_date_params` has start_date chronologically at most its end_date,
and the two are at most 30 days apart. -/
theorem iterDateParams_window_well_ordered (s e : Int) (w : DateWindow)
    (hw : w ∈ iterDateParams s e) :
    w.start_date ≤ w.end_date ∧ w.end_date - w.start_date ≤ 30 * 86400 := by
  rw [iterDateParams] at hw
  by_cases h : e < s
  · rw [if_pos h] at hw
    have := iterDateBackward_mem s e w hw
    simp only [dateDiffSeconds] at this
    exact ⟨this.2.1, this.2.2.2⟩
  · rw [if_neg h] at hw
    have := iterDateForward_mem s e w hw
    simp only [dateDiffSeconds] at this
    exact ⟨this.2.1, this.2.2.2⟩

/-- C10 witness: the single window of the one-day range from 0 to 86400. -/
theorem iterDateParams_window_well_ordered_witness :
    DateWindow.start_date { start_date := 0, end_date := 86400 } ≤
      DateWindow.end_date { start_date := 0, end_date := 86400 } ∧
    DateWindow.end_date { start_date := 0, end_date := 86400 } -
      DateWindow.start_date { start_date := 0, end_date := 86400 } ≤ 30 * 86400 :=
  iterDateParams_window_well_ordered 0 86400 { start_date := 0, end_date := 86400 }
    (by
      rw [iterDateParams, if_neg (by omega), iterDateForward_cons 0 86400 (by omega)]
      rw [iterDateForward_nil _ 86400 (by simp [dateDiffSeconds])]
      simp [dateDiffSeconds])

/-! ## Claim C3: the pager's request trace

With every response reporting the requested page number and a fixed
total_pages T, the pager issues exactly T requests — provided T is at least
1.  The claim as stated also covers T = 0, where the pager still issues one
request (the loop starts from the assumed state page 0 of total_pages 1),
contradicting the claimed count of exactly T = 0 requests; see the
counterexample.  The amended claim restricts the exact count to T ≥ 1. -/

theorem iterPagesFrom_stop (fetch : Nat → PageResponse) (r : PageResponse) (fuel : Nat)
    (h : ¬ r.page < r.total_pages) : iterPagesFrom fetch r fuel = [] := by
  cases fuel <;> simp [iterPagesFrom, h]

theorem iterPagesFrom_length (T : Nat) (fetch : Nat → PageResponse)
    (hfetch : ∀ n, 1 ≤ n → n ≤ T → fetch n = { page := n, total_pages := T }) :
    ∀ fuel p, p ≤ T → T - p ≤ fuel →
      (iterPagesFrom fetch { page := p, total_pages := T } fuel).length = T - p := by
  intro fuel
  induction fuel with
  | zero =>
    intro p _ hfuel
    simp only [iterPagesFrom, List.length_nil]
    omega
  | succ fuel ih =>
    intro p hp hfuel
    by_cases hlt : p < T
    · simp only [iterPagesFrom, hlt, if_pos]
      rw [hfetch (p + 1) (by omega) (by omega)]
      simp only [List.length_cons]
      rw [ih (p + 1) (by omega) (by omega)]
      omega
    · simp only [iterPagesFrom, hlt, if_neg, if_false]
      simp only [List.length_nil]
      omega

theorem iterPagesFrom_get? (T : Nat) (fetch : Nat → PageResponse)
    (hfetch : ∀ n, 1 ≤ n → n ≤ T → fetch n = { page := n, total_pages := T }) :
    ∀ fuel p, p ≤ T → T - p ≤ fuel →
      ∀ i, i < T - p →
        (iterPagesFrom fetch { page := p, total_pages := T } fuel).get? i =
          some (p + i + 1, { page := p + i + 1, total_pages := T }) := by
  intro fuel
  induction fuel with
  | zero =>
    intro p _ hfuel i hi
    omega
  | succ fuel ih =>
    intro p hp hfuel i hi
    have hlt : p < T := by omega
    simp only [iterPagesFrom, hlt, if_pos]
    rw [hfetch (p + 1) (by omega) (by omega)]
    match i with
    | 0 => simp
    | i + 1 =>
      simp only [List.get?_cons_succ]
      rw [ih (p + 1) (by omega) (by omega) i (by omega)]
      rw [show p + 1 + i + 1 = p + (i + 1) + 1 by omega]

theorem iterPages_ne_nil (fetch : Nat → PageResponse) (fuel : Nat) (h : 1 ≤ fuel) :
    iterPages fetch fuel ≠ [] := by
  cases fuel with
  | zero => omega
  | succ n =>
    rw [iterPages]
    simp [iterPagesFrom]

/-- C3 counterexample: when every response reports the requested page number
and total_pages 0, the pager issues one request, not the claimed exactly
T = 0 requests (the loop always starts from the assumed state page 0 of
total_pages 1). -/
theorem iterPages_zero_total_counterexample :
    (iterPages (fun n => { page := n, total_pages := 0 }) 5).length = 1 ∧
    (iterPages (fun n => { page := n, total_pages := 0 }) 5).length ≠ 0 := by
  refine ⟨by decide, by decide⟩

/-- C3 (amended): for every oracle whose responses report the requested page
number and a fixed total_pages T with T ≥ 1, the pager issues exactly T
requests and yields exactly T responses, the Nth request carrying page
parameter N; and for every oracle whatsoever the pager issues at least one
request. -/
theorem iterPages_request_trace (fetch : Nat → PageResponse) (T fuel : Nat)
    (hfetch : ∀ n, 1 ≤ n → n ≤ T → fetch n = { page := n, total_pages := T })
    (hT : 1 ≤ T) (hfuel : T ≤ fuel) :
    (iterPages fetch fuel).length = T ∧
    (∀ i, i < T → (iterPages fetch fuel).get? i =
      some (i + 1, { page := i + 1, total_pages := T })) ∧
    (∀ (fetch2 : Nat → PageResponse) (fuel2 : Nat), 1 ≤ fuel2 →
      iterPages fetch2 fuel2 ≠ []) := by
  obtain ⟨fuel1, rfl⟩ : ∃ k, fuel = k + 1 := ⟨fuel - 1, by omega⟩
  have hstep : iterPages fetch (fuel1 + 1) =
      (1, { page := 1, total_pages := T }) ::
        iterPagesFrom fetch { page := 1, total_pages := T } fuel1 := by
    rw [iterPages]
    simp only [iterPagesFrom, Nat.zero_lt_one, if_pos]
    rw [hfetch 1 (by omega) hT]
  refine ⟨?_, ?_, fun f2 fuel2 h2 => iterPages_ne_nil f2 fuel2 h2⟩
  · rw [hstep]
    simp only [List.length_cons]
    rw [iterPagesFrom_length T fetch hfetch fuel1 1 hT (by omega)]
    omega
  · intro i hi
    rw [hstep]
    match i with
    | 0 => simp
    | i + 1 =>
      simp only [List.get?_cons_succ]
      rw [iterPagesFrom_get? T fetch hfetch fuel1 1 hT (by omega) i (by omega)]
      rw [show 1 + i + 1 = i + 1 + 1 by omega]

/-- C3 witness: the amended claim at the two-page oracle with exactly enough
fuel, plus the always-at-least-one-request fact. -/
theorem iterPages_request_trace_witness :
    (iterPages (fun n => { page := n, total_pages := 2 }) 2).length = 2 ∧
    (∀ i, i < 2 → (iterPages (fun n => { page := n, total_pages := 2 }) 2).get? i =
      some (i + 1, { page := i + 1, total_pages := 2 })) ∧
    (∀ (fetch2 : Nat → PageResponse) (fuel2 : Nat), 1 ≤ fuel2 →
      iterPages fetch2 fuel2 ≠ []) :=
  iterPages_request_trace (fun n => { page := n, total_pages := 2 }) 2 2
    (fun _ _ _ => rfl) (by norm_num) (by norm_num)

/-! ## Claim C4: get_transaction searches newest-first and reports NotFound -/

theorem getTransactionLoop_all_empty {τ : Type} (search : DateWindow → List τ)
    (tid : String) (ws : List DateWindow) (h : ∀ w ∈ ws, search w = []) :
    getTransactionLoop search tid ws =
      { result := .notFound tid, requests := ws.length } := by
  induction ws with
  | nil => rfl
  | cons w rest ih =>
    have hw : search w = [] := h w (by simp)
    simp only [getTransactionLoop, hw]
    rw [ih (fun u hu => h u (by simp [hu]))]
    simp

theorem getTransactionLoop_found {τ : Type} (search : DateWindow → List τ)
    (tid : String) (pre : List DateWindow) (w : DateWindow) (post : List DateWindow)
    (t : τ) (ts : List τ) (hpre : ∀ u ∈ pre, search u = []) (hw : search w = t :: ts) :
    getTransactionLoop search tid (pre ++ w :: post) =
      { result := .found t, requests := pre.length + 1 } := by
  induction pre with
  | nil =>
    simp only [List.nil_append, getTransactionLoop, hw]
    rfl
  | cons u rest ih =>
    have hu : search u = [] := hpre u (by simp)
    simp only [List.cons_append, getTransactionLoop, hu, List.append_eq]
    rw [ih (fun v hv => hpre v (by simp [hv]))]
    simp

/-- C4: over the window sequence of `_iter_date_params(end_date, start_date)`
(backward, i.e. newest-first, whenever start_date < end_date — third
conjunct), `get_transaction` issues one request per window until the first
window whose `transaction_details` array is non-empty and returns that
array's first element; if every window's array is empty it returns the
not-found error carrying the searched transaction id, having issued exactly
one request per window. -/
theorem get_transaction_spec {τ : Type} (search : DateWindow → List τ)
    (transaction_id : String) (end_date start_date : Int) :
    ((∀ w ∈ iterDateParams end_date start_date, search w = []) →
      get_transaction search transaction_id end_date start_date =
        { result := .notFound transaction_id,
          requests := (iterDateParams end_date start_date).length }) ∧
    (∀ (pre : List DateWindow) (w : DateWindow) (post : List DateWindow) (t : τ)
        (ts : List τ),
      iterDateParams end_date start_date = pre ++ w :: post →
      (∀ u ∈ pre, search u = []) → search w = t :: ts →
      get_transaction search transaction_id end_date start_date =
        { result := .found t, requests := pre.length + 1 }) ∧
    (start_date < end_date →
      List.Chain' (fun a b => a.start_date = b.end_date)
        (iterDateParams end_date start_date) ∧
      ∀ w, (iterDateParams end_date start_date).head? = some w →
        w.end_date = end_date) := by
  refine ⟨?_, ?_, ?_⟩
  · intro h
    exact getTransactionLoop_all_empty search transaction_id _ h
  · intro pre w post t ts hwin hpre hw
    rw [get_transaction, hwin]
    exact getTransactionLoop_found search transaction_id pre w post t ts hpre hw
  · intro h
    rw [iterDateParams, if_pos h]
    exact ⟨iterDateBackward_chain end_date start_date,
      fun w hw => iterDateBackward_head_end end_date start_date w hw⟩

/-- C4 witness: a not-found run over the 45-day backward range (one request
per window), a successful run over a one-day range returning the single
match after one request, and the newest-first shape of that window list. -/
theorem get_transaction_spec_witness :
    get_transaction (fun _ => ([] : List Nat)) "MISSING1234567890" 3888000 0 =
      { result := .notFound "MISSING1234567890",
        requests := (iterDateParams 3888000 0).length } ∧
    get_transaction (fun _ => ([7] : List Nat)) "FOUND123456789012" 86400 0 =
      { result := .found 7, requests := 1 } ∧
    (List.Chain' (fun a b => a.start_date = b.end_date) (iterDateParams 86400 0) ∧
      ∀ w, (iterDateParams 86400 0).head? = some w → w.end_date = 86400) := by
  have hwin : iterDateParams 86400 0 = [{ start_date := 0, end_date := 86400 }] := by
    rw [iterDateParams, if_pos (by norm_num), iterDateBackward_cons _ _ (by norm_num)]
    have hmax : max (86400 - dateDiffSeconds) (0 : Int) = 0 := by
      simp only [dateDiffSeconds]
      omega
    rw [hmax, iterDateBackward_nil 0 0 (by norm_num)]
  refine ⟨(get_transaction_spec (fun _ => ([] : List Nat)) "MISSING1234567890"
      3888000 0).1 (fun _ _ => rfl), ?_,
    (get_transaction_spec (fun _ => ([7] : List Nat)) "FOUND123456789012"
      86400 0).2.2 (by norm_num)⟩
  exact (get_transaction_spec (fun _ => ([7] : List Nat)) "FOUND123456789012"
      86400 0).2.1 [] { start_date := 0, end_date := 86400 } [] 7 [] hwin
    (by simp) rfl

/-! ## Claim C8: retry-once on 401 in `PayPalSession.request` -/

/-- C8: a 401 response triggers exactly one token fetch and one retry, whose
response is returned (so a second consecutive 401 propagates with no further
fetch or retry); a non-401 first response is returned directly; in every
case the trace holds at most two original-URL requests and at most one token
fetch. -/
theorem sessionRequest_retry_once (transport : Nat → Nat) :
    (transport 0 = 401 →
      (sessionRequest transport).1 =
        [.httpRequest 401, .tokenFetch, .httpRequest (transport 1)] ∧
      (sessionRequest transport).2 = transport 1) ∧
    (transport 0 ≠ 401 →
      (sessionRequest transport).1 = [.httpRequest (transport 0)] ∧
      (sessionRequest transport).2 = transport 0) ∧
    (sessionRequest transport).1.countP (fun e => e.isHttpRequest) ≤ 2 ∧
    (sessionRequest transport).1.countP (fun e => e.isTokenFetch) ≤ 1 := by
  unfold sessionRequest
  by_cases h : transport 0 = 401 <;>
    simp [h, List.countP_cons, List.countP_nil, SessionEvent.isHttpRequest,
      SessionEvent.isTokenFetch]

/-- C8 witness: a call whose both underlying requests return 401 (one fetch,
one retry, the second 401 returned) and a call whose first response is 200
(no fetch, no retry). -/
theorem sessionRequest_retry_once_witness :
    ((sessionRequest (fun _ => 401)).1 =
        [.httpRequest 401, .tokenFetch, .httpRequest 401] ∧
      (sessionRequest (fun _ => 401)).2 = 401) ∧
    ((sessionRequest (fun _ => 200)).1 = [.httpRequest 200] ∧
      (sessionRequest (fun _ => 200)).2 = 200) :=
  ⟨(sessionRequest_retry_once (fun _ => 401)).1 rfl,
    (sessionRequest_retry_once (fun _ => 200)).2.1 (by decide)⟩

/-! ## Claim C7: field-selector serialization and round-trip -/

/-- C7: `param_value()` of TRANSACTION | PAYER is exactly
"transaction_info,payer_info" (base fields in declaration order), and for
each base flag name, `from_arg` of that name followed by `param_value`
serializes to the flag's API parameter name with the `_info` suffix. -/
theorem transactionFields_param_value_round_trip :
    paramValue (1 ||| 2) = "transaction_info,payer_info" ∧
    (["transaction", "payer", "shipping", "auction", "cart", "incentive",
        "store"].all fun name =>
      ((fromArg name).toOption.map paramValue) == some (name ++ "_info")) = true := by
  constructor
  · decide
  · decide

/-! ## Claim C5: error classification of the typed accessors -/

theorem JSON.getItem_error (j : JSON) (k : String) (e : PyError)
    (h : j.getItem k = .error e) : e = .keyError k ∨ e = .typeError := by
  cases j <;> simp only [JSON.getItem] at h
  case obj fields =>
    cases hl : lookupField fields k <;> rw [hl] at h
    · injection h with h2
      exact Or.inl h2.symm
    · exact Except.noConfusion h
  all_goals
    injection h with h2
    exact Or.inr h2.symm

theorem transactionLabel_error (self : JSON) (e2 : PyError)
    (h : transactionLabel self = .error e2) : e2 = .typeError := by
  unfold transactionLabel at h
  cases hti : self.getItem "transaction_info" with
  | ok ti =>
    simp only [hti] at h
    cases hid : ti.getItem "transaction_id" with
    | ok v =>
      simp only [hid] at h
      exact Except.noConfusion h
    | error e1 =>
      simp only [hid] at h
      by_cases hke : e1.isKeyError = true
      · rw [if_pos hke] at h
        exact Except.noConfusion h
      · rw [if_neg hke] at h
        injection h with h3
        rcases JSON.getItem_error ti "transaction_id" e1 hid with rfl | rfl
        · simp [PyError.isKeyError] at hke
        · exact h3.symm
  | error e1 =>
    simp only [hti] at h
    by_cases hke : e1.isKeyError = true
    · rw [if_pos hke] at h
      exact Except.noConfusion h
    · rw [if_neg hke] at h
      injection h with h3
      rcases JSON.getItem_error self "transaction_info" e1 hti with rfl | rfl
      · simp [PyError.isKeyError] at hke
      · exact h3.symm

theorem getFromResponseGo_no_missing (self : JSON) (allKeys : List String)
    (keys : List String) :
    ∀ (retval : JSON) (index : Nat), index ≠ 0 → ∀ m,
      getFromResponseGo self allKeys retval keys index ≠
        .error (.missingFieldError m) := by
  induction keys with
  | nil =>
    intro retval index hidx m h
    exact Except.noConfusion h
  | cons key rest ih =>
    intro retval index hidx m h
    simp only [getFromResponseGo] at h
    cases hg : retval.getItem key with
    | ok v =>
      simp only [hg] at h
      exact ih v (index + 1) (by omega) m h
    | error e =>
      simp only [hg] at h
      by_cases hke : e.isKeyError = true
      · rw [if_pos hke] at h
        cases hl : transactionLabel self with
        | error e2 =>
          simp only [hl] at h
          injection h with h3
          rw [transactionLabel_error self e2 hl] at h3
          exact PyError.noConfusion h3
        | ok txnId =>
          simp only [hl] at h
          rw [if_pos hidx] at h
          injection h with h3
          exact PyError.noConfusion h3
      · rw [if_neg hke] at h
        injection h with h3
        rw [h3] at hke
        simp [PyError.isKeyError] at hke

/-- C5 counterexample: on the tree where `transaction_info` is present but
is not a mapping (here the number 1), looking up the absent first key
`payer_info` raises `TypeError` (from building the error label inside the
handler), not the claimed `MissingFieldError`. -/
theorem getFromResponse_typeerror_counterexample :
    JSON.getItem (.obj [("transaction_info", .num 1)]) "payer_info" =
      .error (.keyError "payer_info") ∧
    getFromResponse (.obj [("transaction_info", .num 1)]) ["payer_info"] =
      .error .typeError ∧
    ∀ msg, getFromResponse (.obj [("transaction_info", .num 1)]) ["payer_info"] ≠
      .error (.missingFieldError msg) := by
  refine ⟨rfl, rfl, ?_⟩
  intro msg h
  rw [show getFromResponse (.obj [("transaction_info", .num 1)]) ["payer_info"] =
      .error .typeError from rfl] at h
  injection h with h2
  exact PyError.noConfusion h2

/-- C5 (amended): provided building the error label succeeds (which holds
whenever the top-level `transaction_info` value, if present, is a mapping;
otherwise the label lookup's `TypeError` propagates instead): a key path
whose first key is absent from the top-level tree raises the distinguished
`MissingFieldError`; an access that fails with a `KeyError`-class error
after the first key resolved raises the generic `KeyError`, never
`MissingFieldError`; and `fee_amount` returns `None` rather than raising
when `transaction_info` is present (as a mapping) without a `fee_amount`
key. -/
theorem transaction_access_error_kinds (self : JSON) (k : String) (ks : List String)
    (lbl : String) (hlbl : transactionLabel self = .ok lbl) :
    (self.getItem k = .error (.keyError k) →
      ∃ msg, getFromResponse self (k :: ks) = .error (.missingFieldError msg)) ∧
    (∀ v, self.getItem k = .ok v →
      ∀ e, getFromResponse self (k :: ks) = .error e →
        e.isKeyError = true → ∃ msg, e = .keyError msg) ∧
    (∀ fs, self.getItem "transaction_info" = .ok (.obj fs) →
      lookupField fs "fee_amount" = none →
      fee_amount self = .ok none) := by
  refine ⟨?_, ?_, ?_⟩
  · intro hmiss
    refine ⟨lbl ++ " was not loaded with " ++ pyRepr k ++ " field", ?_⟩
    rw [getFromResponse]
    simp only [getFromResponseGo, hmiss, hlbl]
    rfl
  · intro v hv e hacc hke
    rw [getFromResponse] at hacc
    simp only [getFromResponseGo, hv] at hacc
    cases e with
    | keyError m => exact ⟨m, rfl⟩
    | missingFieldError m =>
      exact absurd hacc (getFromResponseGo_no_missing self (k :: ks) ks v 1
        (by omega) m)
    | typeError => simp [PyError.isKeyError] at hke
    | invalidOperation => simp [PyError.isKeyError] at hke
    | divisionByZero => simp [PyError.isKeyError] at hke
  · intro fs hti hfee
    rw [fee_amount, getFromResponse]
    simp only [getFromResponseGo, hti]
    simp only [feeAmountOfInfo, JSON.getItem, hfee]
    rfl

/-- C5 witness: the three amended branches at concrete trees — an absent
first key raising MissingFieldError, an absent later key raising the
generic KeyError, and `fee_amount` returning None for a loaded
`transaction_info` mapping without a `fee_amount` key. -/
theorem transaction_access_error_kinds_witness :
    (∃ msg, getFromResponse (.obj [("transaction_info", .obj [])]) ["payer_info"] =
      .error (.missingFieldError msg)) ∧
    (∃ msg, PyError.keyError ("Transaction " ++ joinPath ["payer_info", "email_address"]) =
      .keyError msg) ∧
    fee_amount (.obj [("transaction_info", .obj [])]) = .ok none := by
  refine ⟨?_, ?_, ?_⟩
  · exact (transaction_access_error_kinds (.obj [("transaction_info", .obj [])])
      "payer_info" [] "Transaction" rfl).1 rfl
  · exact (transaction_access_error_kinds (.obj [("payer_info", .obj [])])
      "payer_info" ["email_address"] "Transaction" rfl).2.1 (.obj []) rfl
      (.keyError ("Transaction " ++ joinPath ["payer_info", "email_address"])) rfl rfl
  · exact (transaction_access_error_kinds (.obj [("transaction_info", .obj [])])
      "transaction_info" [] "Transaction" rfl).2.2 [] rfl rfl

/-! ## Claim C6: cart-item construction -/

theorem getItem_obj_ok (fs : List (String × JSON)) (k : String) (v : JSON)
    (h : JSON.getItem (.obj fs) k = .ok v) : lookupField fs k = some v := by
  simp only [JSON.getItem] at h
  cases hl : lookupField fs k <;> rw [hl] at h
  · exact Except.noConfusion h
  · injection h with h2
    rw [h2]

theorem getItem_obj_error (fs : List (String × JSON)) (k : String) (e : PyError)
    (h : JSON.getItem (.obj fs) k = .error e) :
    lookupField fs k = none ∧ e = .keyError k := by
  simp only [JSON.getItem] at h
  cases hl : lookupField fs k <;> rw [hl] at h
  · refine ⟨rfl, ?_⟩
    injection h with h2
    exact h2.symm
  · exact Except.noConfusion h

/-- C6 counterexample: for the reachable cart line with total 1.00 and
quantity 3 (and no `item_unit_price`), `Decimal` division rounds the
quotient to 28 significant digits, so the unit price is
0.3333333333333333333333333333, which is not exactly total divided by
quantity (1/3) as claimed. -/
theorem cartItem_decimal_rounding_counterexample :
    CartItem.from_api
      (.obj [("item_amount",
          .obj [("value", .num (mkRat 100 100)), ("currency_code", .str "USD")]),
        ("item_quantity", .num 3)]) none =
      .ok { code := none, name := none, description := none, quantity := 3,
            unit_price :=
              { number := Rat.divInt 3333333333333333333333333333 (10 ^ 28),
                currency := .str "USD" },
            total_price := { number := mkRat 100 100, currency := .str "USD" } } ∧
    Rat.divInt 3333333333333333333333333333 (10 ^ 28) ≠ mkRat 1 3 := by
  constructor
  · rfl
  · decide

/-- C6 (amended): cart-line construction reads total_price from the
required `item_amount` key (absence propagates as the missing-key error),
defaults quantity to 1 when `item_quantity` is absent, and when
`item_unit_price` is absent derives the unit price as total_price /
quantity computed by `Decimal` division — the exact quotient rounded to the
default context's 28 significant digits, which is exact whenever the
quotient is representable in 28 significant digits (e.g. 15.98 / 2 = 7.99
exactly, see the witness) — with the total's currency. -/
theorem cartItem_from_api_spec (fs : List (String × JSON)) (dn : Option JSON) :
    (lookupField fs "item_amount" = none →
      CartItem.from_api (.obj fs) dn = .error (.keyError "item_amount")) ∧
    (∀ item : CartItem, CartItem.from_api (.obj fs) dn = .ok item →
      (lookupField fs "item_quantity" = none → item.quantity = 1) ∧
      (∃ aj, lookupField fs "item_amount" = some aj ∧
        amountFromAPI aj = .ok item.total_price) ∧
      (lookupField fs "item_unit_price" = none →
        item.unit_price.number = decimalDivide item.total_price.number item.quantity ∧
        item.unit_price.currency = item.total_price.currency)) := by
  constructor
  · intro h
    simp only [CartItem.from_api, JSON.getItem, h]
  · intro item hok
    simp only [CartItem.from_api] at hok
    cases ha : JSON.getItem (.obj fs) "item_amount" with
    | error e =>
      simp only [ha] at hok
      exact Except.noConfusion hok
    | ok aj =>
      simp only [ha] at hok
      cases hamt : amountFromAPI aj with
      | error e =>
        simp only [hamt] at hok
        exact Except.noConfusion hok
      | ok total =>
        simp only [hamt] at hok
        cases hq : pyDecimal ((JSON.getOpt (.obj fs) "item_quantity").getD (.num 1)) with
        | error e =>
          simp only [hq] at hok
          exact Except.noConfusion hok
        | ok qty =>
          simp only [hq] at hok
          have hqty1 : lookupField fs "item_quantity" = none → qty = 1 := by
            intro hqnone
            rw [show JSON.getOpt (.obj fs) "item_quantity" =
              lookupField fs "item_quantity" from rfl, hqnone] at hq
            simp only [Option.getD_none, pyDecimal] at hq
            injection hq with h2
            exact h2.symm
          cases hu : JSON.getItem (.obj fs) "item_unit_price" with
          | ok upJson =>
            simp only [hu] at hok
            cases hup : amountFromAPI upJson with
            | ok up =>
              simp only [hup] at hok
              injection hok with hitem
              subst hitem
              refine ⟨hqty1, ⟨aj, getItem_obj_ok fs "item_amount" aj ha, hamt⟩, ?_⟩
              intro hunone
              simp only [JSON.getItem, hunone] at hu
              exact Except.noConfusion hu
            | error e2 =>
              simp only [hup] at hok
              by_cases hke : e2.isKeyError = true
              · rw [if_pos hke] at hok
                by_cases hq0 : qty = 0
                · rw [if_pos hq0] at hok
                  exact Except.noConfusion hok
                · rw [if_neg hq0] at hok
                  injection hok with hitem
                  subst hitem
                  refine ⟨hqty1, ⟨aj, getItem_obj_ok fs "item_amount" aj ha, hamt⟩, ?_⟩
                  intro hunone
                  simp only [JSON.getItem, hunone] at hu
                  exact Except.noConfusion hu
              · rw [if_neg hke] at hok
                exact Except.noConfusion hok
          | error e =>
            simp only [hu] at hok
            obtain ⟨hlnone, rfl⟩ := getItem_obj_error fs "item_unit_price" e hu
            have hke : PyError.isKeyError (.keyError "item_unit_price") = true := by
              decide
            rw [if_pos hke] at hok
            by_cases hq0 : qty = 0
            · rw [if_pos hq0] at hok
              exact Except.noConfusion hok
            · rw [if_neg hq0] at hok
              injection hok with hitem
              subst hitem
              exact ⟨hqty1, ⟨aj, getItem_obj_ok fs "item_amount" aj ha, hamt⟩,
                fun _ => ⟨rfl, rfl⟩⟩

/-- C6 witness: the amended claim applied at three concrete cart lines — a
line missing `item_amount` errors with the missing key; a line with only
`item_amount` (value 15.98 USD) gets quantity 1 and the Decimal-divided
unit price; a line with quantity 2 likewise, with the total's currency —
and the claim's example quotient 15.98 / 2 evaluates to exactly 7.99. -/
theorem cartItem_from_api_spec_witness :
    CartItem.from_api (.obj []) none = .error (.keyError "item_amount") ∧
    (∀ item : CartItem,
      CartItem.from_api
        (.obj [("item_amount",
          .obj [("value", .num (mkRat 1598 100)), ("currency_code", .str "USD")])]) none =
        .ok item →
      item.quantity = 1 ∧
      item.unit_price.number = decimalDivide item.total_price.number item.quantity) ∧
    (∀ item : CartItem,
      CartItem.from_api
        (.obj [("item_amount",
            .obj [("value", .num (mkRat 1598 100)), ("currency_code", .str "USD")]),
          ("item_quantity", .num 2)]) none =
        .ok item →
      item.unit_price.number = decimalDivide item.total_price.number item.quantity ∧
      item.unit_price.currency = item.total_price.currency) ∧
    decimalDivide (mkRat 1598 100) 2 = mkRat 799 100 := by
  refine ⟨(cartItem_from_api_spec [] none).1 rfl, ?_, ?_, by decide⟩
  · intro item hok
    obtain ⟨hq, -, hu⟩ := (cartItem_from_api_spec _ none).2 item hok
    exact ⟨hq rfl, (hu rfl).1⟩
  · intro item hok
    obtain ⟨-, -, hu⟩ := (cartItem_from_api_spec _ none).2 item hok
    exact hu rfl

/-! ## Claim C9: cart_items skips only missing-key conversion failures

The item loop's handler is `except KeyError: pass`, so a line item whose
conversion fails with a `KeyError` (e.g. no `item_amount`) is dropped and
iteration continues; but a conversion failure of any other class — e.g.
`decimal.InvalidOperation` from a non-numeric `item_quantity` string —
propagates and aborts the whole iteration, so the claim's unqualified
"malformed line item is dropped" is false; see the counterexample. -/

theorem cartItemsFrom_skips (dn : Option JSON) (items : List JSON)
    (h : ∀ src ∈ items, ∀ e, CartItem.from_api src dn = .error e →
      e.isKeyError = true) :
    cartItemsFrom dn items =
      .ok (items.filterMap fun src => (CartItem.from_api src dn).toOption) := by
  induction items with
  | nil => rfl
  | cons src rest ih =>
    have ihr := ih (fun u hu e he => h u (by simp [hu]) e he)
    simp only [cartItemsFrom, List.filterMap_cons]
    cases hc : CartItem.from_api src dn with
    | ok item =>
      dsimp only
      rw [ihr]
      simp [Except.toOption]
    | error e =>
      dsimp only
      rw [if_pos (h src (by simp) e hc), ihr]
      simp [Except.toOption]

/-- C9 counterexample: a cart whose first line item has a well-formed
`item_amount` but a non-numeric `item_quantity` string aborts the whole
iteration with the uncaught `InvalidOperation`, so the well-formed second
item is never yielded — the malformed item is not simply dropped. -/
theorem cart_items_counterexample :
    cart_items (.obj [("cart_info", .obj [("item_details", .arr
        [.obj [("item_amount",
            .obj [("value", .num 5), ("currency_code", .str "USD")]),
          ("item_quantity", .str "x")],
         .obj [("item_amount",
            .obj [("value", .num 3), ("currency_code", .str "USD")])]])])]) =
      .error .invalidOperation ∧
    ∀ items, cart_items (.obj [("cart_info", .obj [("item_details", .arr
        [.obj [("item_amount",
            .obj [("value", .num 5), ("currency_code", .str "USD")]),
          ("item_quantity", .str "x")],
         .obj [("item_amount",
            .obj [("value", .num 3), ("currency_code", .str "USD")])]])])]) ≠
      .ok items := by
  refine ⟨rfl, ?_⟩
  intro items h
  rw [show cart_items (.obj [("cart_info", .obj [("item_details", .arr
      [.obj [("item_amount",
          .obj [("value", .num 5), ("currency_code", .str "USD")]),
        ("item_quantity", .str "x")],
       .obj [("item_amount",
          .obj [("value", .num 3), ("currency_code", .str "USD")])]])])]) =
      .error .invalidOperation from rfl] at h
  exact Except.noConfusion h

/-- C9 (amended): when a cart's `item_details` is loaded and every failing
line-item conversion fails with a `KeyError`-class error (a missing key),
`cart_items` skips exactly those items and yields a `CartItem` for every
item whose conversion succeeds, in order; conversion failures of any other
class are not swallowed (they propagate, per the counterexample). -/
theorem cart_items_skips_missing_key (self cart_info : JSON) (items : List JSON)
    (dn : Option JSON)
    (hci : getFromResponse self ["cart_info"] = .ok cart_info)
    (hdetails : cart_info.getItem "item_details" = .ok (.arr items))
    (hdn : defaultNameOf self = .ok dn)
    (hskip : ∀ src ∈ items, ∀ e, CartItem.from_api src dn = .error e →
      e.isKeyError = true) :
    cart_items self =
      .ok (items.filterMap fun src => (CartItem.from_api src dn).toOption) := by
  rw [cart_items]
  simp only [hci, hdetails, hdn]
  exact cartItemsFrom_skips dn items hskip

/-- C9 witness: a cart holding one well-formed item followed by one item
missing its required `item_amount` key yields exactly the one well-formed
item; the missing-key item is skipped. -/
theorem cart_items_skips_missing_key_witness :
    cart_items (.obj [("cart_info", .obj [("item_details", .arr
        [.obj [("item_amount",
            .obj [("value", .num 3), ("currency_code", .str "USD")])],
         .obj [("item_quantity", .num 1)]])])]) =
      .ok ([.obj [("item_amount",
            .obj [("value", .num 3), ("currency_code", .str "USD")])],
          (.obj [("item_quantity", .num 1)] : JSON)].filterMap
        fun src => (CartItem.from_api src none).toOption) := by
  refine cart_items_skips_missing_key _ _ _ none rfl rfl rfl ?_
  intro src hsrc e he
  rcases List.mem_cons.mp hsrc with rfl | hsrc2
  · have hval : (CartItem.from_api (.obj [("item_amount",
        .obj [("value", .num 3), ("currency_code", .str "USD")])])
        (none : Option JSON)).toOption.isSome = true := rfl
    rw [he] at hval
    simp [Except.toOption] at hval
  · rcases List.mem_cons.mp hsrc2 with rfl | hsrc3
    · have hval : CartItem.from_api (.obj [("item_quantity", .num 1)])
          (none : Option JSON) = .error (.keyError "item_amount") := rfl
      rw [hval] at he
      injection he with h2
      rw [← h2]
      rfl
    · simp at hsrc3

end PaypalRest
